import Mathlib

/-!
Verification of the expense-tracking frontend (`expense_fe`).

This file shallowly embeds the parts of the TypeScript source that the
specified properties talk about:

* `src/api/mockAPI.ts` — the client-side balance derivation
  `calculateBalance`;
* `src/pages/Register.tsx` — the chat page's balance classification
  (`isSettled` and the balance display), the expense-creation handler
  `handleAddExpense`, the registration handler `handleRegister`, the OTP
  submission handler `handleVerifyOTP`, and the OTP input sanitizer;
* `src/context/AuthContext.tsx` — the client session effects of `login`,
  `register` and `verifyOTP`.

Monetary amounts (JavaScript `number` values in the source) are embedded
as rationals `ℚ`; HTTP calls are embedded by passing the backend
response as an explicit argument; `localStorage` plus the React `user`
state are embedded as a `Session` record threaded through the functions.
Where a claim depends on the backend (a separate repository), the
backend endpoint is modelled from the spec and marked as such.
-/

namespace ExpenseFE

/-- The `Expense` interface from `src/data/mockData.ts`.  The `amount`
field (a JS `number`) is embedded as `ℚ`. -/
structure Expense where
  id : String
  userAId : String
  userBId : String
  amount : ℚ
  description : String
  paidByUserId : String
  date : String
deriving Repr, DecidableEq

/-- `calculateBalance` from `src/api/mockAPI.ts`: a left fold over the
expense list starting from `0`, adding the amount when the current user
paid and subtracting it otherwise. -/
def calculateBalance (expenses : List Expense) (currentUserId : String) : ℚ :=
  expenses.foldl
    (fun balance expense =>
      if expense.paidByUserId = currentUserId then
        balance + expense.amount
      else
        balance - expense.amount)
    0

/-- The spec's balance formula (§3, *Derived: Balance*): the sum of the
amounts of the records whose payer is the given user. -/
def sumAmountsPaidBy (expenses : List Expense) (who : String) : ℚ :=
  ((expenses.filter (fun e => e.paidByUserId = who)).map (fun e => e.amount)).sum

/-- The signed contribution of a single record to the balance seen by
`u`, used to rewrite the fold as a sum. -/
def signedAmount (u : String) (e : Expense) : ℚ :=
  if e.paidByUserId = u then e.amount else -e.amount

/-- A small concrete history between users `"a"` and `"b"`, used by the
witness theorems. -/
def sampleExpenses : List Expense :=
  [ ⟨"e1", "a", "b", 5, "lunch", "a", "2025-01-01"⟩,
    ⟨"e2", "a", "b", 3, "coffee", "b", "2025-01-02"⟩,
    ⟨"e3", "a", "b", 2, "snacks", "a", "2025-01-03"⟩ ]

/-- How the chat page in `src/pages/Register.tsx` presents a balance:
the "All Settled" banner, the "{friend} owes you" line, or the
"You owe {friend}" line. -/
inductive BalanceClass where
  | settled
  | counterpartyOwesObserver
  | observerOwesCounterparty
deriving Repr, DecidableEq

/-- `const isSettled = Math.abs(balance) < 0.01` from the chat page in
`src/pages/Register.tsx`; the literal `0.01` is embedded as the rational
`1/100`. -/
def isSettled (balance : ℚ) : Bool := |balance| < 1/100

/-- The balance display of the chat page in `src/pages/Register.tsx`:
`isSettled ? settled : balance > 0 ? counterparty-owes : observer-owes`. -/
def classifyBalance (balance : ℚ) : BalanceClass :=
  if isSettled balance then .settled
  else if balance > 0 then .counterpartyOwesObserver
  else .observerOwesCounterparty

/-- A one-record history whose balance is `1/200`, strictly between `0`
and the settled threshold `1/100`. -/
def tinyExpenses : List Expense :=
  [ ⟨"e1", "a", "b", 1/200, "rounding", "a", "2025-01-01"⟩ ]

/-- The `User` interface from `src/data/mockData.ts`. -/
structure User where
  id : String
  email : String
  name : Option String
  email_verified : Bool
deriving Repr, DecidableEq

/-- The client session kept by `AuthContext` in
`src/context/AuthContext.tsx`: the `token` entry of `localStorage` and
the React `user` state (mirrored in the `user` entry of
`localStorage`). -/
structure Session where
  token : Option String
  user : Option User
deriving Repr, DecidableEq

/-- `isAuthenticated: !!user` from `AuthContext`. -/
def Session.isAuthenticated (s : Session) : Bool := s.user.isSome

/-- An HTTP outcome of a backend endpoint as the client observes it:
either a 2xx body or an error status code. -/
inductive AuthHttp (α : Type) where
  | ok (body : α)
  | err (status : Nat)
deriving Repr, DecidableEq

/-- The `TokenResponse` shape from `src/data/mockData.ts`, with the
`user` field optional because the client explicitly guards against a
2xx body that is missing `access_token` or `user`. -/
structure TokenBody where
  access_token : String
  user : Option User
deriving Repr, DecidableEq

/-- The error kinds distinguished by `login`'s catch block in
`src/context/AuthContext.tsx`. -/
inductive LoginError where
  | invalidCredentials
  | notVerified
  | userNotFound
  | invalidResponse
  | other
deriving Repr, DecidableEq

/-- The session effect and error mapping of `login` in
`src/context/AuthContext.tsx`: on a 2xx body with a non-empty token and
a user, both are stored and the user set; a 401 maps to invalid
credentials, a 403 to not-verified, a 404 to user-not-found; every
failure path leaves the session untouched. -/
def loginClient (sess : Session) (resp : AuthHttp TokenBody) :
    Session × Option LoginError :=
  match resp with
  | .ok body =>
      if body.access_token = "" ∨ body.user = none then
        (sess, some LoginError.invalidResponse)
      else
        ({ token := some body.access_token, user := body.user }, none)
  | .err status =>
      if status = 401 then (sess, some LoginError.invalidCredentials)
      else if status = 403 then (sess, some LoginError.notVerified)
      else if status = 404 then (sess, some LoginError.userNotFound)
      else (sess, some LoginError.other)

/-- Modelled from the spec: a backend account record. The backend is a
separate repository; §3 of the spec gives an account an id, an email, a
password credential and a `verified` flag. -/
structure Account where
  id : String
  email : String
  password : String
  name : Option String
  verified : Bool
deriving Repr, DecidableEq

/-- Modelled from the spec: the backend `/auth/login` endpoint, per §6
(`login -> {accountId}` with errors `InvalidCredentials`, `NotVerified`)
and the §3 invariant that an unverified account cannot authenticate:
`InvalidCredentials` is HTTP 401 and `NotVerified` HTTP 403, matching
the statuses `AuthContext.login` maps. -/
def backendLogin (accounts : List Account) (email password : String) :
    AuthHttp TokenBody :=
  match accounts.find? (fun a => a.email == email && a.password == password) with
  | none => .err 401
  | some a =>
      if a.verified then
        .ok { access_token := "jwt-" ++ a.id,
              user := some { id := a.id, email := a.email, name := a.name,
                             email_verified := true } }
      else .err 403

/-- The error kinds distinguished by `verifyOTP`'s catch block in
`src/context/AuthContext.tsx` (400 ↦ invalid-or-expired, 404 ↦
user-not-found). -/
inductive VerifyError where
  | invalidOrExpired
  | userNotFound
  | invalidResponse
  | other
deriving Repr, DecidableEq

/-- The session effect and error mapping of `verifyOTP` in
`src/context/AuthContext.tsx`: identical session handling to `login`,
with a 400 mapped to invalid-or-expired and a 404 to user-not-found. -/
def verifyOTPClient (sess : Session) (resp : AuthHttp TokenBody) :
    Session × Option VerifyError :=
  match resp with
  | .ok body =>
      if body.access_token = "" ∨ body.user = none then
        (sess, some VerifyError.invalidResponse)
      else
        ({ token := some body.access_token, user := body.user }, none)
  | .err status =>
      if status = 400 then (sess, some VerifyError.invalidOrExpired)
      else if status = 404 then (sess, some VerifyError.userNotFound)
      else (sess, some VerifyError.other)

/-- Modelled from the spec: an account as the Credential Verifier sees
it (§3 `OneTimeCode`, §4.1): at most one active code, whose expiry is
evaluated at read time (`otpExpired` records whether now > expires-at). -/
structure OtpAccount where
  id : String
  email : String
  verified : Bool
  activeOtp : Option String
  otpExpired : Bool
deriving Repr, DecidableEq

/-- Modelled from the spec: the backend `/auth/verify-otp` endpoint,
Credential Verifier `VerifyCode` (§4.1): `NotFound` (HTTP 404) when the
account does not exist; `InvalidOrExpired` (HTTP 400) when there is no
active code, the code mismatches, or it has expired; on success the
account is marked verified, the code consumed, and a token response
returned. Returns the response and the updated account store. -/
def backendVerifyOTP (accounts : List OtpAccount) (userId otp : String) :
    AuthHttp TokenBody × List OtpAccount :=
  match accounts.find? (fun a => a.id == userId) with
  | none => (.err 404, accounts)
  | some a =>
      match a.activeOtp with
      | none => (.err 400, accounts)
      | some code =>
          if code == otp && !a.otpExpired then
            (.ok { access_token := "jwt-" ++ a.id,
                   user := some { id := a.id, email := a.email, name := none,
                                  email_verified := true } },
             accounts.map (fun b =>
               if b.id == userId then { b with verified := true, activeOtp := none }
               else b))
          else (.err 400, accounts)

/-- The error text `handleVerifyOTP` in `src/pages/Register.tsx` shows
for each failure kind surfaced by `verifyOTP`. -/
def verifyErrorMessage : VerifyError → String
  | .invalidOrExpired => "Invalid or expired OTP"
  | .userNotFound => "User not found"
  | .invalidResponse => "OTP verification failed. Please try again."
  | .other => "OTP verification failed. Please try again."

/-- The two steps of the registration page in
`src/pages/Register.tsx`. -/
inductive RegStep where
  | registerStep
  | verifyStep
deriving Repr, DecidableEq

/-- The state of the registration page in `src/pages/Register.tsx`:
the current step, the form fields, the saved `user_id`, the invitation
token taken from the URL, and the error / message banners. -/
structure RegisterPageState where
  step : RegStep
  email : String
  password : String
  confirmPassword : String
  otp : String
  userId : String
  invitationToken : Option String
  error : String
  message : String
deriving Repr, DecidableEq

/-- The OTP input onChange handler in `src/pages/Register.tsx`:
`e.target.value.replace(/\D/g, ...)` drops every non-digit character,
and `.slice(0, 6)` truncates the result to six characters. -/
def otpInputSanitize (s : String) : String :=
  ((s.toList.filter Char.isDigit).take 6).asString

/-- `handleVerifyOTP` from `src/pages/Register.tsx`: clears the banners,
refuses to call `verifyOTP` when no `user_id` is saved or when the
entered code is not exactly six characters long, and otherwise calls
`verifyOTP` (embedded as `backendVerifyOTP` composed with
`verifyOTPClient`). Returns the new page state, the new session, the
new backend store, and the `(user_id, otp)` pair sent to
`/auth/verify-otp` when a request was issued. -/
def handleVerifyOTP (st : RegisterPageState) (sess : Session)
    (accounts : List OtpAccount) :
    RegisterPageState × Session × List OtpAccount × Option (String × String) :=
  if st.userId = "" then
    ({ st with error := "User ID not found. Please register again.", message := "" },
     sess, accounts, none)
  else if st.otp.length ≠ 6 then
    ({ st with error := "Please enter a valid 6-digit OTP code.", message := "" },
     sess, accounts, none)
  else
    let result := backendVerifyOTP accounts st.userId st.otp
    let client := verifyOTPClient sess result.1
    match client.2 with
    | none =>
        ({ st with
            error := "",
            message := "Email verified successfully! Redirecting to dashboard..." },
         client.1, result.2, some (st.userId, st.otp))
    | some e =>
        ({ st with error := verifyErrorMessage e, message := "" },
         client.1, result.2, some (st.userId, st.otp))

/-- The `RegisterResponse` shape from `src/data/mockData.ts`. -/
structure RegisterBody where
  message : String
  user_id : String
  email : String
  email_verified : Bool
deriving Repr, DecidableEq

/-- The error kinds distinguished by `register` in
`src/context/AuthContext.tsx`: the weak-password error thrown before the
request, the 400 email-taken error, and everything else. -/
inductive RegisterError where
  | weakPassword
  | emailTaken
  | other
deriving Repr, DecidableEq

/-- `register` from `src/context/AuthContext.tsx`: when the password is
shorter than 8 characters it throws before posting; otherwise it posts
`/auth/register` and returns the response body, storing nothing in the
session either way. Returns the session, whether the request was sent,
and the result. -/
def registerClient (sess : Session) (password : String)
    (resp : AuthHttp RegisterBody) :
    Session × Bool × Except RegisterError RegisterBody :=
  if password.length < 8 then
    (sess, false, .error RegisterError.weakPassword)
  else
    match resp with
    | .ok body => (sess, true, .ok body)
    | .err status =>
        if status = 400 then (sess, true, .error RegisterError.emailTaken)
        else (sess, true, .error RegisterError.other)

/-- The error text `handleRegister` in `src/pages/Register.tsx` shows
for each failure kind surfaced by `register`. -/
def registerErrorMessage : RegisterError → String
  | .weakPassword => "Password must be at least 8 characters"
  | .emailTaken => "Email already registered"
  | .other => "Registration failed. Please try again."

/-- `handleRegister` from `src/pages/Register.tsx`: validates the
password length and the confirmation match before calling `register`;
on success it saves the returned `user_id` for the OTP step and moves
to the verify step. Returns the new page state, the session, and
whether the registration request was sent. -/
def handleRegister (st : RegisterPageState) (sess : Session)
    (resp : AuthHttp RegisterBody) :
    RegisterPageState × Session × Bool :=
  if st.password.length < 8 then
    ({ st with error := "Password must be at least 8 characters long.", message := "" },
     sess, false)
  else if st.password ≠ st.confirmPassword then
    ({ st with error := "Passwords do not match.", message := "" }, sess, false)
  else
    let r := registerClient sess st.password resp
    match r.2.2 with
    | .ok body =>
        ({ st with
            userId := body.user_id,
            error := "",
            message :=
              if st.invitationToken ≠ none then
                "Registration successful! Check your email for the 6-digit OTP code. You\x27ll be automatically connected with your friend after verification!"
              else
                "Registration successful! Check your email for the 6-digit OTP code.",
            step := RegStep.verifyStep },
         r.1, r.2.1)
    | .error e =>
        ({ st with error := registerErrorMessage e, message := "" }, r.1, r.2.1)

/-- The request body posted by `addExpense` in `src/api/mockAPI.ts`. -/
structure AddExpenseRequest where
  friend_id : String
  amount : ℚ
  description : String
  paid_by_user_id : String
  expense_date : String
deriving Repr, DecidableEq

/-- The chat page's payer selector: `paidBy === 'me'` or `'friend'`. -/
inductive PaidBy where
  | me
  | friendPayer
deriving Repr, DecidableEq

/-- `handleAddExpense` from the chat page in `src/pages/Register.tsx`.
The `parseFloat(amount)` result is embedded as an `Option ℚ` argument
(`none` standing for a `NaN` parse). Mirrors the validation gate: a
missing or non-positive amount, then a blank (trimmed-empty)
description, each stop the handler before `addExpense` is called.
Returns the expense list as visible at validation time, the error text,
and the request issued to the backend, if any (the success path later
appends the backend's response, which is outside this gate). -/
def handleAddExpense (expenses : List Expense) (amountNum : Option ℚ)
    (description : String) (friendId userId : String) (paidBy : PaidBy)
    (today : String) :
    List Expense × String × Option AddExpenseRequest :=
  match amountNum with
  | none => (expenses, "Please enter a valid amount", none)
  | some a =>
      if a ≤ 0 then (expenses, "Please enter a valid amount", none)
      else if description.trim = "" then
        (expenses, "Please enter a description", none)
      else
        (expenses, "",
         some { friend_id := friendId, amount := a, description := description,
                paid_by_user_id := if paidBy = PaidBy.me then userId else friendId,
                expense_date := today })

lemma calculateBalance_fold_shift (es : List Expense) (u : String) (b : ℚ) :
    es.foldl
      (fun balance expense =>
        if expense.paidByUserId = u then balance + expense.amount
        else balance - expense.amount)
      b
    = b + es.foldl
      (fun balance expense =>
        if expense.paidByUserId = u then balance + expense.amount
        else balance - expense.amount)
      0 := by
  induction es generalizing b with
  | nil => simp
  | cons e es ih =>
    simp only [List.foldl_cons]
    rw [ih, ih (if e.paidByUserId = u then 0 + e.amount else 0 - e.amount)]
    by_cases h : e.paidByUserId = u <;> simp [h] <;> ring

lemma calculateBalance_eq_sum_signed (es : List Expense) (u : String) :
    calculateBalance es u = (es.map (signedAmount u)).sum := by
  induction es with
  | nil => simp [calculateBalance]
  | cons e es ih =>
    simp only [calculateBalance, List.foldl_cons, List.map_cons, List.sum_cons]
    rw [calculateBalance_fold_shift]
    unfold calculateBalance at ih
    rw [ih]
    by_cases h : e.paidByUserId = u <;> simp [signedAmount, h, sub_eq_add_neg]

lemma sumAmountsPaidBy_cons (e : Expense) (es : List Expense) (who : String) :
    sumAmountsPaidBy (e :: es) who
      = (if e.paidByUserId = who then e.amount else 0) + sumAmountsPaidBy es who := by
  by_cases h : e.paidByUserId = who <;>
    simp [sumAmountsPaidBy, List.filter_cons, h]

/-- Shared helper: under the pairwise-history hypotheses the fold in
`calculateBalance` coincides with the spec's difference of payer sums. -/
lemma calculateBalance_formula (es : List Expense) (observer counterparty : String)
    (hne : observer ≠ counterparty)
    (hpay : ∀ e ∈ es, e.paidByUserId = observer ∨ e.paidByUserId = counterparty) :
    calculateBalance es observer
      = sumAmountsPaidBy es observer - sumAmountsPaidBy es counterparty := by
  induction es with
  | nil => simp [calculateBalance, sumAmountsPaidBy]
  | cons e es ih =>
    have he := hpay e (List.mem_cons_self e es)
    have ih' := ih (fun x hx => hpay x (List.mem_cons_of_mem e hx))
    rw [calculateBalance_eq_sum_signed] at ih' ⊢
    rw [List.map_cons, List.sum_cons, sumAmountsPaidBy_cons, sumAmountsPaidBy_cons, ih']
    rcases he with h | h
    · simp [signedAmount, h, hne.symm, Ne.symm]
      ring
    · have hne' : counterparty ≠ observer := fun hc => hne hc.symm
      simp [signedAmount, h, hne']
      ring

/-- **C1.** For every list of expense records between an observer and a
counterparty in which each record's payer is one of the two (distinct)
participants, `calculateBalance expenses observer` equals the sum of the
amounts of the records paid by the observer minus the sum of the amounts
of the records paid by the counterparty. -/
theorem calculateBalance_matches_spec_formula
    (es : List Expense) (observer counterparty : String)
    (hne : observer ≠ counterparty)
    (hpay : ∀ e ∈ es, e.paidByUserId = observer ∨ e.paidByUserId = counterparty) :
    calculateBalance es observer
      = sumAmountsPaidBy es observer - sumAmountsPaidBy es counterparty :=
  calculateBalance_formula es observer counterparty hne hpay

/-- Witness for C1 on a concrete three-record history. -/
theorem calculateBalance_matches_spec_formula_witness :
    ("a" : String) ≠ "b"
    ∧ (∀ e ∈ sampleExpenses, e.paidByUserId = "a" ∨ e.paidByUserId = "b")
    ∧ calculateBalance sampleExpenses "a"
        = sumAmountsPaidBy sampleExpenses "a" - sumAmountsPaidBy sampleExpenses "b" :=
  ⟨by decide, by decide,
    calculateBalance_matches_spec_formula sampleExpenses "a" "b" (by decide) (by decide)⟩

/-- **C2.** Antisymmetry: over a history whose payers all lie in the
distinct pair `{a, b}`, the balance from `a`'s perspective is the
negation of the balance from `b`'s perspective. -/
theorem calculateBalance_antisymm (es : List Expense) (a b : String)
    (hne : a ≠ b)
    (hpay : ∀ e ∈ es, e.paidByUserId = a ∨ e.paidByUserId = b) :
    calculateBalance es a = -calculateBalance es b := by
  rw [calculateBalance_formula es a b hne hpay,
    calculateBalance_formula es b a hne.symm (fun e he => (hpay e he).symm)]
  ring

lemma classify_settled_iff (b : ℚ) :
    classifyBalance b = BalanceClass.settled ↔ |b| < 1/100 := by
  by_cases h1 : |b| < 1/100
  · have hset : isSettled b = true := by simpa [isSettled] using h1
    simp [classifyBalance, hset]
    linarith
  · have hset : isSettled b = false := by simpa [isSettled] using h1
    by_cases h2 : 0 < b <;> simp [classifyBalance, hset, h2] <;>
      linarith [not_lt.mp h1]

lemma classify_counterparty_iff (b : ℚ) :
    classifyBalance b = BalanceClass.counterpartyOwesObserver ↔ 1/100 ≤ b := by
  by_cases h1 : |b| < 1/100
  · have hset : isSettled b = true := by simpa [isSettled] using h1
    have hlt := (abs_lt.mp h1).2
    simp [classifyBalance, hset]
    linarith
  · have hset : isSettled b = false := by simpa [isSettled] using h1
    have habs : 1/100 ≤ |b| := not_lt.mp h1
    by_cases h2 : 0 < b
    · have hge : 1/100 ≤ b := by rwa [abs_of_pos h2] at habs
      simp [classifyBalance, hset, h2]
      linarith
    · have hb0 : b ≤ 0 := not_lt.mp h2
      simp [classifyBalance, hset, h2]
      linarith

lemma classify_observer_iff (b : ℚ) :
    classifyBalance b = BalanceClass.observerOwesCounterparty ↔ b ≤ -(1/100) := by
  by_cases h1 : |b| < 1/100
  · have hset : isSettled b = true := by simpa [isSettled] using h1
    have hgt := (abs_lt.mp h1).1
    simp [classifyBalance, hset]
    linarith
  · have hset : isSettled b = false := by simpa [isSettled] using h1
    have habs : 1/100 ≤ |b| := not_lt.mp h1
    by_cases h2 : 0 < b
    · simp [classifyBalance, hset, h2]
      linarith
    · have hle : b ≤ -(1/100) := by
        rw [abs_of_nonpos (not_lt.mp h2)] at habs
        linarith
      simp [classifyBalance, hset, h2]
      linarith

/-- **C4, counterexample.** The chat page does NOT classify a pair as
settled exactly when the balance is zero: the one-record history
`tinyExpenses` has the nonzero balance `1/200`, yet the page shows
"All Settled" because `|1/200| < 0.01`. -/
theorem classify_settled_iff_zero_counterexample :
    ¬(classifyBalance (calculateBalance tinyExpenses "a") = BalanceClass.settled
        ↔ calculateBalance tinyExpenses "a" = 0) := by
  have hval : calculateBalance tinyExpenses "a" = 1/200 := by
    norm_num [calculateBalance, tinyExpenses]
  rw [hval, classify_settled_iff, abs_of_pos (by norm_num : (0:ℚ) < 1/200)]
  norm_num

/-- **C4, amended.** The chat page classifies the pair as settled
exactly when `|balance| < 0.01`, reports that the counterparty owes the
observer exactly when `balance ≥ 0.01`, and reports that the observer
owes the counterparty exactly when `balance ≤ -0.01`. -/
theorem classifyBalance_cases (es : List Expense) (u : String) :
    (classifyBalance (calculateBalance es u) = BalanceClass.settled
        ↔ |calculateBalance es u| < 1/100)
    ∧ (classifyBalance (calculateBalance es u) = BalanceClass.counterpartyOwesObserver
        ↔ 1/100 ≤ calculateBalance es u)
    ∧ (classifyBalance (calculateBalance es u) = BalanceClass.observerOwesCounterparty
        ↔ calculateBalance es u ≤ -(1/100)) :=
  ⟨classify_settled_iff _, classify_counterparty_iff _, classify_observer_iff _⟩

/-- Witness for C2 on a concrete three-record history. -/
theorem calculateBalance_antisymm_witness :
    ("a" : String) ≠ "b"
    ∧ (∀ e ∈ sampleExpenses, e.paidByUserId = "a" ∨ e.paidByUserId = "b")
    ∧ calculateBalance sampleExpenses "a" = -calculateBalance sampleExpenses "b" :=
  ⟨by decide, by decide,
    calculateBalance_antisymm sampleExpenses "a" "b" (by decide) (by decide)⟩

/-- **C5.** The expense-creation handler is a synchronous validation
gate: the create request is issued exactly when the parsed amount is a
positive number and the trimmed description is non-empty; at validation
time the stored expense list is untouched, and the error banner is
empty exactly when the request goes out. -/
theorem handleAddExpense_validation_gate
    (es : List Expense) (amountNum : Option ℚ) (d f u today : String)
    (p : PaidBy) :
    (handleAddExpense es amountNum d f u p today).1 = es
    ∧ ((handleAddExpense es amountNum d f u p today).2.2.isSome = true
        ↔ (∃ a, amountNum = some a ∧ 0 < a) ∧ ¬(d.trim = ""))
    ∧ ((handleAddExpense es amountNum d f u p today).2.2.isSome = true
        ↔ (handleAddExpense es amountNum d f u p today).2.1 = "") := by
  cases amountNum with
  | none => simp [handleAddExpense]
  | some a =>
    by_cases h1 : a ≤ 0
    · have h1' : ¬(0 < a) := not_lt.mpr h1
      simp [handleAddExpense, h1, h1']
    · by_cases h2 : d.trim = ""
      · simp [handleAddExpense, h1, h2]
      · have h1' : 0 < a := lt_of_not_le h1
        simp [handleAddExpense, h1, h2, h1']

/-- Witness for C5: a concrete valid submission. -/
theorem handleAddExpense_validation_gate_witness :
    (handleAddExpense [] (some 25) "dinner" "f1" "u1" PaidBy.me "2025-01-01").1 = []
    ∧ ((handleAddExpense [] (some 25) "dinner" "f1" "u1" PaidBy.me
          "2025-01-01").2.2.isSome = true
        ↔ (∃ a, (some (25 : ℚ)) = some a ∧ 0 < a) ∧ ¬(("dinner" : String).trim = ""))
    ∧ ((handleAddExpense [] (some 25) "dinner" "f1" "u1" PaidBy.me
          "2025-01-01").2.2.isSome = true
        ↔ (handleAddExpense [] (some 25) "dinner" "f1" "u1" PaidBy.me
            "2025-01-01").2.1 = "") :=
  handleAddExpense_validation_gate [] (some 25) "dinner" "f1" "u1" "2025-01-01"
    PaidBy.me

/-- **C6.** A password shorter than 8 characters makes `register` fail
with the weak-password error before any write: the request flag is
`false` and the session is returned unchanged; a password of length at
least 8 passes the check and the request is sent (again with the
session untouched). -/
theorem register_weak_password_rejected
    (sess : Session) (password strongPassword : String)
    (resp resp2 : AuthHttp RegisterBody)
    (hshort : password.length < 8) (hlong : 8 ≤ strongPassword.length) :
    registerClient sess password resp
        = (sess, false, Except.error RegisterError.weakPassword)
    ∧ (registerClient sess strongPassword resp2).2.1 = true
    ∧ (registerClient sess strongPassword resp2).1 = sess := by
  have hnl : ¬ strongPassword.length < 8 := not_lt.mpr hlong
  refine ⟨by simp [registerClient, hshort], ?_, ?_⟩ <;>
  · cases resp2 with
    | ok body => simp [registerClient, hnl]
    | err s => by_cases h : s = 400 <;> simp [registerClient, hnl, h]

/-- Witness for C6: a 5-character password is rejected, an 11-character
one is sent. -/
theorem register_weak_password_rejected_witness :
    ("short" : String).length < 8
    ∧ 8 ≤ ("password123" : String).length
    ∧ (registerClient ⟨none, none⟩ "short" (AuthHttp.err 500)
          = (⟨none, none⟩, false, Except.error RegisterError.weakPassword)
        ∧ (registerClient ⟨none, none⟩ "password123" (AuthHttp.err 500)).2.1 = true
        ∧ (registerClient ⟨none, none⟩ "password123" (AuthHttp.err 500)).1
            = ⟨none, none⟩) :=
  ⟨by decide, by decide,
    register_weak_password_rejected ⟨none, none⟩ "short" "password123"
      (AuthHttp.err 500) (AuthHttp.err 500) (by decide) (by decide)⟩

/-- Shared helper: every failing response from the modelled
`/auth/verify-otp` endpoint leaves the account store unchanged. -/
lemma backendVerifyOTP_err_accounts (accounts : List OtpAccount) (u o : String)
    (s : Nat) (h : (backendVerifyOTP accounts u o).1 = AuthHttp.err s) :
    (backendVerifyOTP accounts u o).2 = accounts := by
  unfold backendVerifyOTP at h ⊢
  rcases hf : List.find? (fun a => a.id == u) accounts with _ | a
  all_goals simp only [hf] at h ⊢
  rcases ha : a.activeOtp with _ | code
  all_goals simp only [ha] at h ⊢
  by_cases hc : (code == o && !a.otpExpired) = true
  · simp only [if_pos hc] at h
    exact absurd h (by simp)
  · simp only [if_neg hc]

/-- **C7.** The spec-modelled backend refuses to authenticate an
unverified account: when the credentials match an account whose
`verified` flag is false, the client's `login` reports the not-verified
error and leaves the session exactly as it was; moreover every failed
`login` (whatever the response) leaves the session unchanged. -/
theorem login_unverified_never_authenticates
    (accounts : List Account) (email password : String) (sess sess2 : Session)
    (a : Account) (resp : AuthHttp TokenBody)
    (hfind : accounts.find? (fun a => a.email == email && a.password == password)
        = some a)
    (hunv : a.verified = false) :
    loginClient sess (backendLogin accounts email password)
        = (sess, some LoginError.notVerified)
    ∧ ((loginClient sess2 resp).2 = none ∨ (loginClient sess2 resp).1 = sess2) := by
  constructor
  · simp [backendLogin, hfind, hunv, loginClient]
  · cases resp with
    | ok body =>
        by_cases h : body.access_token = "" ∨ body.user = none
        · right; simp [loginClient, h]
        · left; simp [loginClient, h]
    | err s =>
        right
        by_cases h1 : s = 401
        · simp [loginClient, h1]
        · by_cases h2 : s = 403 <;> by_cases h3 : s = 404 <;>
            simp [loginClient, h1, h2, h3]

/-- An unverified backend account used by the C7 witness. -/
def sampleAccount : Account :=
  { id := "u1", email := "x@x.com", password := "pw12345", name := none,
    verified := false }

/-- Witness for C7: logging in as the unverified `sampleAccount`. -/
theorem login_unverified_never_authenticates_witness :
    [sampleAccount].find?
        (fun a => a.email == "x@x.com" && a.password == "pw12345")
      = some sampleAccount
    ∧ sampleAccount.verified = false
    ∧ (loginClient ⟨none, none⟩ (backendLogin [sampleAccount] "x@x.com" "pw12345")
          = (⟨none, none⟩, some LoginError.notVerified)
        ∧ ((loginClient ⟨none, none⟩ (AuthHttp.err 401)).2 = none
            ∨ (loginClient ⟨none, none⟩ (AuthHttp.err 401)).1 = ⟨none, none⟩)) :=
  ⟨by decide, by decide,
    login_unverified_never_authenticates [sampleAccount] "x@x.com" "pw12345"
      ⟨none, none⟩ ⟨none, none⟩ sampleAccount (AuthHttp.err 401)
      (by decide) (by decide)⟩

/-- **C8.** A failed OTP verification is fully isolated: the modelled
backend leaves the account store (and hence the account's pending
state) unchanged, the client maps the failure status to the matching
error kind (400 ↦ invalid-or-expired, 404 ↦ not-found), the session is
unchanged, the page stays on the same (verification) step showing the
error text, and a success response with a token and user is the only
thing that stores the token and sets the user. -/
theorem verifyOTP_failure_isolated
    (st : RegisterPageState) (sess : Session) (accounts : List OtpAccount)
    (s : Nat) (body : TokenBody)
    (huid : st.userId ≠ "") (hlen : st.otp.length = 6)
    (herr : (backendVerifyOTP accounts st.userId st.otp).1 = AuthHttp.err s)
    (hknown : s = 400 ∨ s = 404)
    (htok : body.access_token ≠ "") (huser : body.user ≠ none) :
    (backendVerifyOTP accounts st.userId st.otp).2 = accounts
    ∧ (verifyOTPClient sess (AuthHttp.err s)).2
        = some (if s = 400 then VerifyError.invalidOrExpired
                else VerifyError.userNotFound)
    ∧ (handleVerifyOTP st sess accounts).2.1 = sess
    ∧ (handleVerifyOTP st sess accounts).1.step = st.step
    ∧ (handleVerifyOTP st sess accounts).1.error
        = verifyErrorMessage
            (if s = 400 then VerifyError.invalidOrExpired
             else VerifyError.userNotFound)
    ∧ verifyOTPClient sess (AuthHttp.ok body)
        = ({ token := some body.access_token, user := body.user }, none) := by
  have hacc := backendVerifyOTP_err_accounts accounts st.userId st.otp s herr
  have hclient : verifyOTPClient sess (AuthHttp.err s)
      = (sess, some (if s = 400 then VerifyError.invalidOrExpired
                     else VerifyError.userNotFound)) := by
    rcases hknown with h4 | h4 <;> subst h4 <;> simp [verifyOTPClient]
  have hok : verifyOTPClient sess (AuthHttp.ok body)
      = ({ token := some body.access_token, user := body.user }, none) := by
    simp [verifyOTPClient, htok, huser]
  have hhandle : handleVerifyOTP st sess accounts
      = ({ st with
            error := verifyErrorMessage
              (if s = 400 then VerifyError.invalidOrExpired
               else VerifyError.userNotFound),
            message := "" },
         sess, accounts, some (st.userId, st.otp)) := by
    unfold handleVerifyOTP
    rw [if_neg huid, if_neg (by rw [hlen]; exact fun hc => hc rfl)]
    simp only [herr, hclient, hacc]
  refine ⟨hacc, hclient ▸ rfl, ?_, ?_, ?_, hok⟩ <;> rw [hhandle]

/-- Concrete page state on the verification step, used by witnesses:
a saved `user_id` and a six-digit code entered. -/
def verifyPageState : RegisterPageState :=
  { step := RegStep.verifyStep, email := "x@x.com", password := "password123",
    confirmPassword := "password123", otp := "222222", userId := "u1",
    invitationToken := none, error := "", message := "" }

/-- Concrete backend store for the C8 witness: the pending account holds
an active code different from the one the user entered. -/
def pendingAccounts : List OtpAccount :=
  [ { id := "u1", email := "x@x.com", verified := false,
      activeOtp := some "111111", otpExpired := false } ]

/-- Witness for C8: submitting the wrong code against the pending
account yields a 400 that is fully isolated. -/
theorem verifyOTP_failure_isolated_witness :
    (backendVerifyOTP pendingAccounts verifyPageState.userId
        verifyPageState.otp).2 = pendingAccounts
    ∧ (verifyOTPClient ⟨none, none⟩ (AuthHttp.err 400)).2
        = some (if 400 = 400 then VerifyError.invalidOrExpired
                else VerifyError.userNotFound)
    ∧ (handleVerifyOTP verifyPageState ⟨none, none⟩ pendingAccounts).2.1
        = ⟨none, none⟩
    ∧ (handleVerifyOTP verifyPageState ⟨none, none⟩ pendingAccounts).1.step
        = verifyPageState.step
    ∧ (handleVerifyOTP verifyPageState ⟨none, none⟩ pendingAccounts).1.error
        = verifyErrorMessage
            (if 400 = 400 then VerifyError.invalidOrExpired
             else VerifyError.userNotFound)
    ∧ verifyOTPClient ⟨none, none⟩
          (AuthHttp.ok ⟨"jwt-u1", some ⟨"u1", "x@x.com", none, true⟩⟩)
        = ({ token := some "jwt-u1",
             user := some ⟨"u1", "x@x.com", none, true⟩ }, none) :=
  verifyOTP_failure_isolated verifyPageState ⟨none, none⟩ pendingAccounts 400
    ⟨"jwt-u1", some ⟨"u1", "x@x.com", none, true⟩⟩
    (by decide) (by decide) (by decide) (Or.inl rfl) (by decide) (by decide)

/-- Shared helper: `register` never touches the session, whatever the
password or the backend's answer. -/
lemma registerClient_session (sess : Session) (password : String)
    (resp : AuthHttp RegisterBody) :
    (registerClient sess password resp).1 = sess := by
  unfold registerClient
  by_cases h : password.length < 8
  · rw [if_pos h]
  · rw [if_neg h]
    cases resp with
    | ok body => rfl
    | err s => by_cases h4 : s = 400 <;> simp [h4]

/-- Shared helper: `handleRegister` never touches the session either. -/
lemma handleRegister_session (st : RegisterPageState) (sess : Session)
    (resp : AuthHttp RegisterBody) :
    (handleRegister st sess resp).2.1 = sess := by
  by_cases h1 : st.password.length < 8
  · simp [handleRegister, h1]
  · by_cases h2 : st.password = st.confirmPassword
    · have hne : ¬(st.password ≠ st.confirmPassword) := not_not_intro h2
      have hs := registerClient_session sess st.password resp
      rcases hr : (registerClient sess st.password resp).2.2 with e | b <;>
        simp [handleRegister, h1, hne, hr, hs]
    · simp [handleRegister, h1, h2]

/-- **C9.** Successful registration never authenticates the session:
`register` returns the session unchanged for every password and every
backend answer, `handleRegister` likewise stores no token and sets no
user, and on a successful registration the page only saves the
response's `user_id` and moves to the verification step. -/
theorem register_never_authenticates
    (sess : Session) (password : String) (resp : AuthHttp RegisterBody)
    (st : RegisterPageState) (body : RegisterBody)
    (hlen : 8 ≤ st.password.length)
    (hmatch : st.password = st.confirmPassword) :
    (registerClient sess password resp).1 = sess
    ∧ (handleRegister st sess resp).2.1 = sess
    ∧ (handleRegister st sess (AuthHttp.ok body)).1.userId = body.user_id
    ∧ (handleRegister st sess (AuthHttp.ok body)).1.step = RegStep.verifyStep
    ∧ (handleRegister st sess (AuthHttp.ok body)).2.1 = sess := by
  have hnl : ¬ st.password.length < 8 := not_lt.mpr hlen
  have hne : ¬(st.password ≠ st.confirmPassword) := not_not_intro hmatch
  refine ⟨registerClient_session sess password resp,
    handleRegister_session st sess resp, ?_, ?_,
    handleRegister_session st sess (AuthHttp.ok body)⟩ <;>
  · simp [handleRegister, registerClient, hnl, hne]

/-- Concrete page state on the registration step for the C9 witness. -/
def registerPageState : RegisterPageState :=
  { step := RegStep.registerStep, email := "x@x.com",
    password := "password123", confirmPassword := "password123", otp := "",
    userId := "", invitationToken := none, error := "", message := "" }

/-- Witness for C9: a successful registration returns the `user_id` and
leaves the session empty. -/
theorem register_never_authenticates_witness :
    (registerClient ⟨none, none⟩ "password123" (AuthHttp.err 500)).1
        = ⟨none, none⟩
    ∧ (handleRegister registerPageState ⟨none, none⟩ (AuthHttp.err 500)).2.1
        = ⟨none, none⟩
    ∧ (handleRegister registerPageState ⟨none, none⟩
          (AuthHttp.ok ⟨"registered", "u1", "x@x.com", false⟩)).1.userId
        = (⟨"registered", "u1", "x@x.com", false⟩ : RegisterBody).user_id
    ∧ (handleRegister registerPageState ⟨none, none⟩
          (AuthHttp.ok ⟨"registered", "u1", "x@x.com", false⟩)).1.step
        = RegStep.verifyStep
    ∧ (handleRegister registerPageState ⟨none, none⟩
          (AuthHttp.ok ⟨"registered", "u1", "x@x.com", false⟩)).2.1
        = ⟨none, none⟩ :=
  register_never_authenticates ⟨none, none⟩ "password123" (AuthHttp.err 500)
    registerPageState ⟨"registered", "u1", "x@x.com", false⟩
    (by decide) (by decide)

/-- Shared helper: the OTP input sanitizer emits only decimal digits. -/
lemma otpInputSanitize_digits (s : String) :
    (otpInputSanitize s).data.all Char.isDigit = true := by
  show ((s.data.filter Char.isDigit).take 6).all Char.isDigit = true
  rw [List.all_eq_true]
  intro c hc
  exact List.of_mem_filter (List.mem_of_mem_take hc)

/-- **C10.** A verification request only ever carries a code of exactly
six decimal digits: whenever the OTP field holds a sanitized input
value and `handleVerifyOTP` issues a request, the code sent is that
field, it is six characters long, and every character is a digit. -/
theorem otp_request_is_six_digits
    (st : RegisterPageState) (sess : Session) (accounts : List OtpAccount)
    (s uid code : String)
    (hotp : st.otp = otpInputSanitize s)
    (hreq : (handleVerifyOTP st sess accounts).2.2.2 = some (uid, code)) :
    code = st.otp ∧ code.length = 6 ∧ code.data.all Char.isDigit = true := by
  simp only [handleVerifyOTP] at hreq
  by_cases h1 : st.userId = ""
  · rw [if_pos h1] at hreq
    simp at hreq
  · rw [if_neg h1] at hreq
    by_cases h2 : st.otp.length ≠ 6
    · rw [if_pos h2] at hreq
      simp at hreq
    · rw [if_neg h2] at hreq
      have hl : st.otp.length = 6 := not_not.mp h2
      rcases hcl :
          (verifyOTPClient sess (backendVerifyOTP accounts st.userId st.otp).1).2
          with _ | e
      · rw [hcl] at hreq
        simp at hreq
        obtain ⟨-, h4⟩ := hreq
        exact ⟨h4.symm, by rw [← h4]; exact hl,
          by rw [← h4, hotp]; exact otpInputSanitize_digits s⟩
      · rw [hcl] at hreq
        simp at hreq
        obtain ⟨-, h4⟩ := hreq
        exact ⟨h4.symm, by rw [← h4]; exact hl,
          by rw [← h4, hotp]; exact otpInputSanitize_digits s⟩

/-- Concrete page state for the C10 witness: the OTP field holds the
sanitized form of a noisy input. -/
def otpPageState : RegisterPageState :=
  { step := RegStep.verifyStep, email := "x@x.com", password := "",
    confirmPassword := "", otp := "123456", userId := "u1",
    invitationToken := none, error := "", message := "" }

/-- Witness for C10: the noisy input is sanitized to six digits and the
request carries exactly that code. -/
theorem otp_request_is_six_digits_witness :
    ("123456" : String) = otpPageState.otp
    ∧ ("123456" : String).length = 6
    ∧ ("123456" : String).data.all Char.isDigit = true :=
  otp_request_is_six_digits otpPageState ⟨none, none⟩ [] "1a2b3c4d5e6f"
    "u1" "123456" (by decide) (by decide)

end ExpenseFE
